import Mathlib

/-
  Shallow embedding of the SpringRoll ContainerPlugin (Container Client module)
  and the pieces of the LearningPlugin that its claims touch.

  The application is modelled as a state record threaded through the plugin
  operations; observable side effects (event triggers, messages delivered to
  the container, destruction steps) are recorded in an effect trace.
  JavaScript values are modelled by a small reflexive inductive in which an
  object is a finite-support field map.

  External collaborators (the Bellhop messenger, the core event bus with its
  single-shot subscriptions, Application.destroy, Object.merge) are not under
  src/; they are modelled from the contracts the specification gives for them,
  and each such definition is marked in its doc comment.
-/

namespace SpringRoll

/-- JavaScript values as the handlers see them: strings, numbers, booleans,
null, undefined, and objects (an object is a map from field names to values). -/
inductive JVal where
  | str (s : String)
  | num (n : Int)
  | bool (b : Bool)
  | null
  | undef
  | obj (fields : String → Option JVal)

/-- JavaScript truthiness: empty string, zero, false, null and undefined are
falsy; every object (including the empty object) is truthy. -/
def truthy : JVal → Bool
  | JVal.str s => s != ""
  | JVal.num n => n != 0
  | JVal.bool b => b
  | JVal.null => false
  | JVal.undef => false
  | JVal.obj _ => true

/-- The JavaScript short-circuit a or-else b, as in exitType or a default. -/
def jsOr (a b : JVal) : JVal := if truthy a then a else b

/-- The empty JavaScript object. -/
def emptyObj : JVal := JVal.obj fun _ => none

/-- Observable side effects of the plugin, in the order they happen. -/
inductive Action where
  | trig (name : String) (data : JVal)
  | msgSend (name : String)
  | appDestroy
  | visDestroy
  | msgDestroy

/-- The Bellhop messenger as the plugin sees it: a support flag, plus whether
the inbound container-message handlers have been registered on it. -/
structure Messenger where
  supported : Bool
  inboundHandlersOn : Bool

/-- A DOM text field used for captions: a node name and a class string. -/
structure TextField where
  nodeName : String
  className : String

/-- The captions subsystem: an optional text field. -/
structure Captions where
  textField : Option TextField

/-- The payload of a captionsStyles container message, restricted to the six
fields the handler reads. -/
structure CaptionsStyles where
  size : String
  background : String
  color : String
  edge : String
  font : String
  align : String

/-- The configuration object delivered by the configLoaded event. -/
structure Config where
  spec : JVal
  specDictionary : JVal

/-- The application state the two plugins read and mutate, together with the
resolved option values, the state of the external collaborators, the liveness
flags of the single-shot event-bus subscriptions, and the effect trace. -/
structure AppState where
  optSinglePlay : JVal := JVal.bool false
  optPlayOptions : JVal := JVal.null
  singlePlay : Bool := false
  playOptions : JVal := JVal.null
  paused : Bool := false
  enabled : Bool := true
  autoPause : Bool := true
  destroyed : Bool := false
  messenger : Option Messenger := none
  pageVisibility : Bool := false
  onLearningEventOn : Bool := false
  onAnalyticEventOn : Bool := false
  loadedOnceLive : Bool := false
  configOnceLive : Bool := false
  winOnunload : Bool := false
  winOnbeforeunload : Bool := false
  learningSpec : JVal := JVal.null
  learningDict : Option JVal := none
  captions : Option Captions := none
  trace : List Action := []

/-- Modelled from the spec: the application event bus trigger operation (core
framework, not under src/) — emits a named event with its data, recorded in
the effect trace. -/
def trigger (name : String) (data : JVal) (s : AppState) : AppState :=
  { s with trace := s.trace ++ [Action.trig name data] }

/-- Modelled from the spec: Application.destroy (core framework, not under
src/) — destroys the application. -/
def destroy (s : AppState) : AppState :=
  { s with destroyed := true, trace := s.trace ++ [Action.appDestroy] }

/-- Modelled from the spec: Bellhop messenger send (external collaborator) —
delivers the named message to the container when the messenger is supported,
and fails silently (no-op) when it is not. -/
def bellhopSend (name : String) (s : AppState) : AppState :=
  match s.messenger with
  | some m =>
      if m.supported then { s with trace := s.trace ++ [Action.msgSend name] }
      else s
  | none => s

/-- this.endGame(exitType): trigger the endGame event with
exitType or the default game_completed, then destroy the application. -/
def endGame (exitType : JVal) (s : AppState) : AppState :=
  destroy (trigger "endGame" (jsOr exitType (JVal.str "game_completed")) s)

/-- this.singlePlayEnd(): end the game only when in single-play mode. -/
def singlePlayEnd (s : AppState) : AppState :=
  if s.singlePlay then endGame JVal.undef s else s

/-- The onWindowUnload handler: clear both unload hooks so the handler cannot
fire twice, then end the game with exit type left_site. -/
def onWindowUnload (s : AppState) : AppState :=
  endGame (JVal.str "left_site")
    { s with winOnunload := false, winOnbeforeunload := false }

/-- A browser unload: the browser invokes the beforeunload hook if one is
installed and then the unload hook if one is installed. -/
def browserUnload (s : AppState) : AppState :=
  let s1 := if s.winOnbeforeunload then onWindowUnload s else s
  if s1.winOnunload then onWindowUnload s1 else s1

/-- ContainerPlugin.setup: register the two options, create and connect the
messenger, subscribe the learningEvent and analyticEvent forwarders, subscribe
once to loaded, initialise the singlePlay and playOptions fields, and install
the window unload handler on both hooks. The supported flag of the new
messenger is supplied by the environment. -/
def setup (sup : Bool) (s : AppState) : AppState :=
  { s with
    messenger := some { supported := sup, inboundHandlersOn := false },
    onLearningEventOn := true,
    onAnalyticEventOn := true,
    loadedOnceLive := true,
    singlePlay := false,
    playOptions := JVal.null,
    winOnunload := true,
    winOnbeforeunload := true }

/-- LearningPlugin setup (src/src/learning/LearningPlugin.js): creates the
dispatcher and subscribes once to configLoaded (and to endGame and init, not
modelled further here). -/
def learningSetup (s : AppState) : AppState :=
  { s with configOnceLive := true, learningSpec := JVal.null, learningDict := none }

/-- The application bus dispatching a learningEvent to the ContainerPlugin
forwarder registered in setup, which sends it on to the container. -/
def fireLearningEvent (s : AppState) : AppState :=
  if s.onLearningEventOn then bellhopSend "learningEvent" s else s

/-- The application bus dispatching an analyticEvent to the ContainerPlugin
forwarder registered in setup. -/
def fireAnalyticEvent (s : AppState) : AppState :=
  if s.onAnalyticEventOn then bellhopSend "analyticEvent" s else s

/-- Modelled from the spec: the loaded event reaching the single-shot
subscription made in setup (once is a single-shot subscription of the core
event bus, not under src/): the first delivery sends loadDone and consumes
the subscription, later deliveries do nothing. -/
def fireLoaded (s : AppState) : AppState :=
  if s.loadedOnceLive then
    bellhopSend "loadDone" { s with loadedOnceLive := false }
  else s

/-- Modelled from the spec: the configLoaded event reaching the single-shot
subscription made by the LearningPlugin: on the first delivery only, if the
config carries a truthy spec, install the dictionary (specDictionary or null)
and the spec on the dispatcher. -/
def fireConfigLoaded (c : Config) (s : AppState) : AppState :=
  if s.configOnceLive then
    let s1 := { s with configOnceLive := false }
    if truthy c.spec then
      { s1 with
        learningDict := some (jsOr c.specDictionary JVal.null),
        learningSpec := c.spec }
    else s1
  else s

/-- A page visibility change observed by the watcher created in preload: when
the watcher exists it sends a focus message to the container. -/
def fireFocus (s : AppState) : AppState :=
  if s.pageVisibility then bellhopSend "focus" s else s

/-- ContainerPlugin.preload: copy the resolved singlePlay and playOptions
options into the instance fields (playOptions falls back to the empty object);
then, only when the messenger is supported, register the inbound message
handlers, send the features message, turn off autoPause, and create the page
visibility watcher. -/
def preload (s : AppState) : AppState :=
  let s1 := { s with
    singlePlay := truthy s.optSinglePlay,
    playOptions := jsOr s.optPlayOptions emptyObj }
  match s1.messenger with
  | some m =>
      if m.supported then
        let s2 := { s1 with
          messenger := some { m with inboundHandlersOn := true } }
        let s3 := bellhopSend "features" s2
        { s3 with autoPause := false, pageVisibility := true }
      else s1
  | none => s1

/-- The onPause container-message handler: paused becomes the boolean coercion
of the message data, enabled its negation. -/
def onPause (e : JVal) (s : AppState) : AppState :=
  { s with paused := truthy e, enabled := !truthy e }

/-- The class string built by onCaptionsStyles from the six style fields. -/
def captionsClassString (st : CaptionsStyles) : String :=
  "size-" ++ st.size ++ " " ++
  "bg-" ++ st.background ++ " " ++
  "color-" ++ st.color ++ " " ++
  "edge-" ++ st.edge ++ " " ++
  "font-" ++ st.font ++ " " ++
  "align-" ++ st.align

/-- The onCaptionsStyles container-message handler: when a captions text field
exists and is a DOM object (has a node name), rewrite its class string; do
nothing otherwise. -/
def onCaptionsStyles (st : CaptionsStyles) (s : AppState) : AppState :=
  match s.captions with
  | some c =>
      match c.textField with
      | some tf =>
          if tf.nodeName != "" then
            let tf1 : TextField := { tf with className := captionsClassString st }
            { s with captions := some ({ c with textField := some tf1 }) }
          else s
      | none => s
  | none => s

/-- Modelled from the spec: Object.merge (core framework utility, not under
src/) — a shallow merge of the source object into the target object: keys
present in the source take the source value, every other key of the target
keeps its value. -/
def objectMerge (target source : String → Option JVal) : String → Option JVal :=
  fun k =>
    match source k with
    | some v => some v
    | none => target k

/-- The onPlayOptions container-message handler: shallow-merge the message
data (or the empty object when the data is falsy) into the existing
playOptions object. -/
def onPlayOptions (e : JVal) (s : AppState) : AppState :=
  match s.playOptions, jsOr e emptyObj with
  | JVal.obj t, JVal.obj src =>
      { s with playOptions := JVal.obj (objectMerge t src) }
  | _, _ => s

/-- The onSinglePlay container-message handler. -/
def onSinglePlay (s : AppState) : AppState :=
  { s with singlePlay := true }

/-- The onClose container-message handler. -/
def onClose (s : AppState) : AppState :=
  endGame (JVal.str "closed_container") s

/-- ContainerPlugin.teardown: dispose the page visibility watcher when it
exists, send a final endGame message to the container, then destroy the
messenger and null the reference. -/
def teardown (s : AppState) : AppState :=
  let s1 :=
    if s.pageVisibility then
      { s with pageVisibility := false, trace := s.trace ++ [Action.visDestroy] }
    else s
  let s2 := bellhopSend "endGame" s1
  { s2 with trace := s2.trace ++ [Action.msgDestroy], messenger := none }

/-- Count of endGame events with exit type left_site in a trace. -/
def countLeftSiteEnd (tr : List Action) : Nat :=
  tr.countP fun a =>
    match a with
    | Action.trig n (JVal.str p) => n == "endGame" && p == "left_site"
    | _ => false

/-- Count of messages with the given name delivered to the container. -/
def countMsg (n : String) (tr : List Action) : Nat :=
  tr.countP fun a =>
    match a with
    | Action.msgSend m => m == n
    | _ => false

/-- C1: when singlePlay is true, singlePlayEnd invokes endGame with no
argument, which triggers exactly one endGame event carrying exit type
game_completed and then destroys the application; when singlePlay is false,
singlePlayEnd changes nothing and triggers no event. -/
theorem singlePlayEnd_spec (s : AppState) :
    (s.singlePlay = true →
      (singlePlayEnd s).trace =
        s.trace ++ [Action.trig "endGame" (JVal.str "game_completed"), Action.appDestroy] ∧
      (singlePlayEnd s).destroyed = true) ∧
    (s.singlePlay = false → singlePlayEnd s = s) := by
  constructor
  · intro h
    constructor <;> simp [singlePlayEnd, h, endGame, trigger, destroy, jsOr, truthy]
  · intro h
    simp [singlePlayEnd, h]

/-- Witness for C1 at concrete states on both sides of the singlePlay flag. -/
theorem singlePlayEnd_spec_witness :
    ((singlePlayEnd { singlePlay := true }).destroyed = true) ∧
    (singlePlayEnd ({ } : AppState) = ({ } : AppState)) :=
  ⟨((singlePlayEnd_spec { singlePlay := true }).1 rfl).2,
   (singlePlayEnd_spec ({ } : AppState)).2 rfl⟩

/-- C6: after an inbound pause message, paused equals the boolean coercion of
the message data and enabled is its negation, so enabled = not paused holds
after every pause message. -/
theorem onPause_spec (e : JVal) (s : AppState) :
    (onPause e s).paused = truthy e ∧
    (onPause e s).enabled = (!truthy e) ∧
    (onPause e s).enabled = !(onPause e s).paused := by
  refine ⟨rfl, rfl, ?_⟩
  simp [onPause]

/-- C10: endGame substitutes game_completed for every falsy exit type, and
the emitted endGame payload is always truthy. -/
theorem endGame_default_exit (v : JVal) (s : AppState) :
    (truthy v = false →
      (endGame v s).trace =
        s.trace ++ [Action.trig "endGame" (JVal.str "game_completed"), Action.appDestroy]) ∧
    (∃ p, (endGame v s).trace = s.trace ++ [Action.trig "endGame" p, Action.appDestroy] ∧
      truthy p = true) := by
  constructor
  · intro h
    simp [endGame, trigger, destroy, jsOr, h]
  · refine ⟨jsOr v (JVal.str "game_completed"), by simp [endGame, trigger, destroy], ?_⟩
    by_cases h : truthy v = true
    · simp [jsOr, h]
    · simp only [Bool.not_eq_true] at h
      simp [jsOr, h]
      decide

/-- Witness for C10: an explicit endGame call with the empty string emits
game_completed. -/
theorem endGame_default_exit_witness :
    (endGame (JVal.str "") ({ } : AppState)).trace =
      [Action.trig "endGame" (JVal.str "game_completed"), Action.appDestroy] :=
  (endGame_default_exit (JVal.str "") ({ } : AppState)).1 (by decide)

/-- C5: every endGame call appends the endGame event to the trace strictly
before the destroy step, and teardown appends the visibility-watcher disposal,
then the final endGame message to the container, then the messenger
destruction, finally nulling the messenger reference. -/
theorem endGame_teardown_ordering (et : JVal) (s t : AppState) (m : Messenger)
    (hv : t.pageVisibility = true) (hm : t.messenger = some m)
    (hs : m.supported = true) :
    (endGame et s).trace =
      s.trace ++ [Action.trig "endGame" (jsOr et (JVal.str "game_completed")),
        Action.appDestroy] ∧
    (teardown t).trace =
      t.trace ++ [Action.visDestroy, Action.msgSend "endGame", Action.msgDestroy] ∧
    (teardown t).messenger = none := by
  refine ⟨by simp [endGame, trigger, destroy], ?_, ?_⟩
  · simp [teardown, bellhopSend, hv, hm, hs]
  · simp [teardown, bellhopSend, hv, hm, hs]

/-- A live, supported messenger with the inbound handlers registered, used by
concrete evaluations. -/
def liveMessenger : Messenger := { supported := true, inboundHandlersOn := true }

/-- A concrete state right before teardown: visibility watcher present and a
live supported messenger. -/
def preTeardownState : AppState :=
  { pageVisibility := true, messenger := some liveMessenger }

/-- Witness for C5 at a concrete state with a live supported messenger and a
visibility watcher. -/
theorem endGame_teardown_ordering_witness :
    (teardown preTeardownState).trace =
      [Action.visDestroy, Action.msgSend "endGame", Action.msgDestroy] ∧
    (teardown preTeardownState).messenger = none :=
  ⟨(endGame_teardown_ordering JVal.null { } preTeardownState liveMessenger
      rfl rfl rfl).2.1,
   (endGame_teardown_ordering JVal.null { } preTeardownState liveMessenger
      rfl rfl rfl).2.2⟩

/-- C8: with the handler installed on both unload hooks, a browser unload
triggers endGame with exit type left_site exactly once, clears both hooks,
and a further browser unload changes nothing. -/
theorem windowUnload_once (s : AppState)
    (_h1 : s.winOnunload = true) (h2 : s.winOnbeforeunload = true) :
    countLeftSiteEnd (browserUnload s).trace = countLeftSiteEnd s.trace + 1 ∧
    (browserUnload s).winOnunload = false ∧
    (browserUnload s).winOnbeforeunload = false ∧
    browserUnload (browserUnload s) = browserUnload s := by
  have hb : browserUnload s =
      endGame (JVal.str "left_site")
        { s with winOnunload := false, winOnbeforeunload := false } := by
    simp [browserUnload, h2, onWindowUnload, endGame, trigger, destroy]
  refine ⟨?_, ?_, ?_, ?_⟩
  · simp [hb, endGame, trigger, destroy, countLeftSiteEnd, List.countP_append, jsOr, truthy]
  · simp [hb, endGame, trigger, destroy]
  · simp [hb, endGame, trigger, destroy]
  · rw [hb]
    simp [browserUnload, endGame, trigger, destroy]

/-- Witness for C8 right after setup installs the handler on both hooks. -/
theorem windowUnload_once_witness :
    countLeftSiteEnd (browserUnload (setup true { })).trace =
      countLeftSiteEnd (setup true ({ } : AppState)).trace + 1 ∧
    (browserUnload (setup true ({ } : AppState))).winOnunload = false :=
  ⟨(windowUnload_once (setup true ({ } : AppState)) rfl rfl).1,
   (windowUnload_once (setup true ({ } : AppState)) rfl rfl).2.1⟩

/-- C2: when the messenger is not supported, preload leaves the messenger (and
so the inbound-handler registration), the trace, the visibility watcher and
autoPause untouched, and none of the outbound forwarders (learningEvent,
analyticEvent, loadDone, focus) ever delivers a message to the container. -/
theorem preload_unsupported_silent (s : AppState) (m : Messenger)
    (hm : s.messenger = some m) (hs : m.supported = false) :
    (preload s).messenger = some m ∧
    (preload s).trace = s.trace ∧
    (preload s).pageVisibility = s.pageVisibility ∧
    (preload s).autoPause = s.autoPause ∧
    (fireLearningEvent (preload s)).trace = (preload s).trace ∧
    (fireAnalyticEvent (preload s)).trace = (preload s).trace ∧
    (fireLoaded (preload s)).trace = (preload s).trace ∧
    (fireFocus (preload s)).trace = (preload s).trace := by
  have hp : preload s =
      { s with
        singlePlay := truthy s.optSinglePlay,
        playOptions := jsOr s.optPlayOptions emptyObj } := by
    simp [preload, hm, hs]
  refine ⟨by simp [hp, hm], by simp [hp], by simp [hp], by simp [hp], ?_, ?_, ?_, ?_⟩
  · unfold fireLearningEvent
    split <;> simp [hp, bellhopSend, hm, hs]
  · unfold fireAnalyticEvent
    split <;> simp [hp, bellhopSend, hm, hs]
  · unfold fireLoaded
    split <;> simp [hp, bellhopSend, hm, hs]
  · unfold fireFocus
    split <;> simp [hp, bellhopSend, hm, hs]

/-- The messenger created by setup when no container is present. -/
def standaloneMessenger : Messenger := { supported := false, inboundHandlersOn := false }

/-- Witness for C2 on the state produced by setup without container support. -/
theorem preload_unsupported_silent_witness :
    (preload (setup false ({ } : AppState))).messenger = some standaloneMessenger ∧
    (preload (setup false ({ } : AppState))).trace = [] ∧
    (preload (setup false ({ } : AppState))).autoPause = true :=
  ⟨(preload_unsupported_silent (setup false { }) standaloneMessenger rfl rfl).1,
   (preload_unsupported_silent (setup false { }) standaloneMessenger rfl rfl).2.1,
   (preload_unsupported_silent (setup false { }) standaloneMessenger rfl rfl).2.2.2.1⟩

/-- The example playOptions object with a mapped to 1. -/
def exA : String → Option JVal := fun k => if k = "a" then some (JVal.num 1) else none

/-- The example inbound payload with b mapped to 2. -/
def exB : String → Option JVal := fun k => if k = "b" then some (JVal.num 2) else none

/-- The example inbound payload with a mapped to 3. -/
def exA3 : String → Option JVal := fun k => if k = "a" then some (JVal.num 3) else none

/-- C3: the playOptions handler shallow-merges the payload into the existing
object: payload keys take the payload value, other existing keys keep their
value; merging b to 2 into a to 1 gives a to 1 with b to 2, and merging a to 3
into a to 1 gives a to 3. -/
theorem onPlayOptions_merge (t src : String → Option JVal) (s : AppState)
    (h : s.playOptions = JVal.obj t) :
    (onPlayOptions (JVal.obj src) s).playOptions = JVal.obj (objectMerge t src) ∧
    (∀ k v, src k = some v → objectMerge t src k = some v) ∧
    (∀ k, src k = none → objectMerge t src k = t k) ∧
    (objectMerge exA exB "a" = some (JVal.num 1) ∧
      objectMerge exA exB "b" = some (JVal.num 2) ∧
      ∀ k, k ≠ "a" → k ≠ "b" → objectMerge exA exB k = none) ∧
    (objectMerge exA exA3 "a" = some (JVal.num 3) ∧
      ∀ k, k ≠ "a" → objectMerge exA exA3 k = none) := by
  refine ⟨?_, ?_, ?_, ⟨rfl, rfl, ?_⟩, ⟨rfl, ?_⟩⟩
  · simp [onPlayOptions, h, jsOr, truthy]
  · intro k v hkv
    simp [objectMerge, hkv]
  · intro k hk
    simp [objectMerge, hk]
  · intro k ha hb
    simp [objectMerge, exA, exB, ha, hb]
  · intro k ha
    simp [objectMerge, exA, exA3, ha]

/-- Witness for C3 merging the example payload into the example object. -/
theorem onPlayOptions_merge_witness :
    (onPlayOptions (JVal.obj exB) { playOptions := JVal.obj exA }).playOptions =
      JVal.obj (objectMerge exA exB) :=
  (onPlayOptions_merge exA exB { playOptions := JVal.obj exA } rfl).1

/-- C4: firing configLoaded twice installs the spec and dictionary of the
first config only, and only when that first config carries a truthy spec;
firing loaded twice delivers loadDone to the container at most once, and
exactly once when the messenger is supported. -/
theorem once_handlers_at_most_once (c1 c2 : Config) (s : AppState)
    (hc : s.configOnceLive = true) (hl : s.loadedOnceLive = true) :
    ((fireConfigLoaded c2 (fireConfigLoaded c1 s)).learningSpec =
      if truthy c1.spec then c1.spec else s.learningSpec) ∧
    ((fireConfigLoaded c2 (fireConfigLoaded c1 s)).learningDict =
      if truthy c1.spec then some (jsOr c1.specDictionary JVal.null)
      else s.learningDict) ∧
    countMsg "loadDone" (fireLoaded (fireLoaded s)).trace ≤
      countMsg "loadDone" s.trace + 1 ∧
    (∀ m, s.messenger = some m → m.supported = true →
      countMsg "loadDone" (fireLoaded (fireLoaded s)).trace =
        countMsg "loadDone" s.trace + 1) := by
  refine ⟨?_, ?_, ?_, ?_⟩
  · by_cases h : truthy c1.spec = true
    · simp [fireConfigLoaded, hc, h]
    · simp only [Bool.not_eq_true] at h
      simp [fireConfigLoaded, hc, h]
  · by_cases h : truthy c1.spec = true
    · simp [fireConfigLoaded, hc, h]
    · simp only [Bool.not_eq_true] at h
      simp [fireConfigLoaded, hc, h]
  · rcases hm : s.messenger with _ | m
    · simp [fireLoaded, hl, bellhopSend, hm]
    · by_cases hsup : m.supported = true
      · simp [fireLoaded, hl, bellhopSend, hm, hsup, countMsg, List.countP_append]
      · simp only [Bool.not_eq_true] at hsup
        simp [fireLoaded, hl, bellhopSend, hm, hsup]
  · intro m hm hsup
    simp [fireLoaded, hl, bellhopSend, hm, hsup, countMsg, List.countP_append]

/-- The first example config, carrying a truthy spec and no dictionary. -/
def exCfg1 : Config := { spec := JVal.str "spec1", specDictionary := JVal.null }

/-- The second example config, carrying a different spec and a dictionary. -/
def exCfg2 : Config := { spec := JVal.str "spec2", specDictionary := JVal.str "dict2" }

/-- A concrete state with both single-shot subscriptions live and a supported
messenger. -/
def liveOnceState : AppState :=
  { configOnceLive := true, loadedOnceLive := true, messenger := some liveMessenger }

/-- Witness for C4: the second configLoaded firing is ignored and loadDone is
delivered exactly once on the concrete live state. -/
theorem once_handlers_at_most_once_witness :
    (fireConfigLoaded exCfg2 (fireConfigLoaded exCfg1 liveOnceState)).learningSpec =
      JVal.str "spec1" ∧
    countMsg "loadDone" (fireLoaded (fireLoaded liveOnceState)).trace = 1 :=
  ⟨(once_handlers_at_most_once exCfg1 exCfg2 liveOnceState rfl rfl).1,
   (once_handlers_at_most_once exCfg1 exCfg2 liveOnceState rfl rfl).2.2.2
     liveMessenger rfl rfl⟩

/-- The class string of the captions text field, when one exists. -/
def captionClassOf (s : AppState) : Option String :=
  match s.captions with
  | some c =>
      match c.textField with
      | some tf => some tf.className
      | none => none
  | none => none

/-- C7: on a captionsStyles message, when a captions text element exists its
class string is rewritten to exactly the fixed-format string built from the
six style fields; the example payload yields the expected string; when no
captions object or no text field exists, nothing changes. -/
theorem onCaptionsStyles_spec (st : CaptionsStyles) (c : Captions)
    (tf : TextField) (s : AppState) (hc : s.captions = some c)
    (htf : c.textField = some tf) (hn : tf.nodeName ≠ "") :
    captionClassOf (onCaptionsStyles st s) = some (captionsClassString st) ∧
    captionsClassString
      { size := "lg", background := "black", color := "white",
        edge := "none", font := "arial", align := "left" } =
      "size-lg bg-black color-white edge-none font-arial align-left" ∧
    (∀ s2 : AppState, s2.captions = none → onCaptionsStyles st s2 = s2) ∧
    (∀ (s2 : AppState) (c2 : Captions), s2.captions = some c2 →
      c2.textField = none → onCaptionsStyles st s2 = s2) := by
  refine ⟨?_, by decide, ?_, ?_⟩
  · simp [onCaptionsStyles, hc, htf, hn, captionClassOf]
  · intro s2 h2
    simp [onCaptionsStyles, h2]
  · intro s2 c2 h2 ht2
    simp [onCaptionsStyles, h2, ht2]

/-- The example captionsStyles payload. -/
def exStyles : CaptionsStyles :=
  { size := "lg", background := "black", color := "white",
    edge := "none", font := "arial", align := "left" }

/-- A concrete state with a captions text field backed by a DOM node. -/
def captionedState : AppState :=
  { captions := some { textField := some { nodeName := "div", className := "" } } }

/-- Witness for C7 on the concrete captioned state with the example payload. -/
theorem onCaptionsStyles_spec_witness :
    captionClassOf (onCaptionsStyles exStyles captionedState) =
      some (captionsClassString exStyles) :=
  (onCaptionsStyles_spec exStyles
    { textField := some { nodeName := "div", className := "" } }
    { nodeName := "div", className := "" }
    captionedState rfl rfl (by decide)).1

/-- C9: after preload, playOptions is never null: a falsy resolved option
(null included) yields the empty object, an object option is kept as is, so a
null-or-object option always leaves playOptions an object. -/
theorem preload_playOptions_nonnull (s : AppState) :
    (truthy s.optPlayOptions = false → (preload s).playOptions = emptyObj) ∧
    (∀ f, s.optPlayOptions = JVal.obj f → (preload s).playOptions = JVal.obj f) ∧
    (preload s).playOptions ≠ JVal.null ∧
    ((s.optPlayOptions = JVal.null ∨ ∃ f, s.optPlayOptions = JVal.obj f) →
      ∃ g, (preload s).playOptions = JVal.obj g) := by
  have hp : (preload s).playOptions = jsOr s.optPlayOptions emptyObj := by
    unfold preload
    rcases hm : s.messenger with _ | m
    · simp [hm]
    · by_cases hsup : m.supported = true
      · simp [hm, hsup, bellhopSend]
      · simp only [Bool.not_eq_true] at hsup
        simp [hm, hsup]
  refine ⟨?_, ?_, ?_, ?_⟩
  · intro h
    simp [hp, jsOr, h]
  · intro f hf
    simp [hp, jsOr, hf, truthy]
  · by_cases h : truthy s.optPlayOptions = true
    · rw [hp]
      simp only [jsOr, h, if_true]
      intro he
      rw [he] at h
      simp [truthy] at h
    · simp only [Bool.not_eq_true] at h
      simp [hp, jsOr, h, emptyObj]
  · rintro (hnull | ⟨f, hf⟩)
    · refine ⟨fun _ => none, ?_⟩
      simp [hp, jsOr, hnull, truthy, emptyObj]
    · exact ⟨f, by simp [hp, jsOr, hf, truthy]⟩

/-- Witness for C9 with the default null playOptions option. -/
theorem preload_playOptions_nonnull_witness :
    (preload { optPlayOptions := JVal.null }).playOptions = emptyObj :=
  (preload_playOptions_nonnull { optPlayOptions := JVal.null }).1 rfl

end SpringRoll
